import Mathlib

/-!
Verification of the V-See Windows media-browsing core.

The definitions below are a shallow embedding of the JavaScript sources:
* `src/src/components/ThumbnailGrid.js` — extension sets, media filter,
  case-insensitive sort, thumbnail loading, restore selection;
* `src/src/viewer.js` — viewer-window display, context fetch and index clamp;
* the frontend entry point (`showPreview`, `dirname`, `startAudioPlayback`).

Machine strings are modelled as Lean `String`s; the event-driven loading
code is modelled as pure functions from the outcomes of the asynchronous
collaborator calls (asset-URL load, data-URL decode) to the list of
collaborator requests issued and the final display state.
-/

namespace VSee

/-! ### Extension classification
From `ThumbnailGrid.js` lines 6-11 (`IMAGE_EXT`/`VIDEO_EXT`/`HEIC_EXT`/`PDF_EXT`)
and `viewer.js` lines 37-50 (the same literal lists). -/

def IMAGE_EXT : List String :=
  ["jpg", "jpeg", "png", "gif", "bmp", "webp", "tiff", "tif", "ico", "svg"]

def VIDEO_EXT : List String := ["mp4", "mov", "avi", "webm", "mkv", "m4v", "wmv"]

def HEIC_EXT : List String := ["heic", "heif"]

def PDF_EXT : List String := ["pdf"]

/-- Embeds `AUDIO_EXT` of the music pane's `PlayableList.js`, staged inside
`src/scripts/run-dev.ps1` at lines 331-333 (its `isAudioFile` tests the same
lowercased last-dot extension as `getExt`). -/
def AUDIO_EXT : List String :=
  ["mp3", "wav", "ogg", "m4a", "aac", "flac", "wma", "opus", "webm"]

/-- Boolean membership of a string in a list (JS `Set.has` / `Array.includes`). -/
def memStr (s : String) : List String → Bool
  | [] => false
  | x :: xs => s == x || memStr s xs

/-- Characters after the last dot of the input (the whole input when there is
no dot), mirroring the JS split-and-pop on the dot character. -/
def extChars : List Char → List Char → List Char
  | [], acc => acc
  | c :: cs, acc => if c = '.' then extChars cs [] else extChars cs (acc ++ [c])

/-- Embeds `getExt` from `ThumbnailGrid.js` lines 24-26 / `viewer.js` lines 33-35:
lowercase file extension of a filename, lowercased last dot-separated segment. -/
def getExt (name : String) : String :=
  String.mk ((extChars name.data []).map Char.toLower)

/-- Embeds `isMediaFile` from `ThumbnailGrid.js` lines 29-32. -/
def isMediaFile (name : String) : Bool :=
  memStr (getExt name) IMAGE_EXT || memStr (getExt name) VIDEO_EXT ||
    memStr (getExt name) HEIC_EXT || memStr (getExt name) PDF_EXT

/-- Embeds `isHeic` from `ThumbnailGrid.js` lines 35-37. -/
def isHeic (name : String) : Bool := memStr (getExt name) HEIC_EXT

/-- Embeds `isPdf` from `ThumbnailGrid.js` lines 40-42. -/
def isPdf (name : String) : Bool := memStr (getExt name) PDF_EXT

/-- Embeds `isVideo` from `ThumbnailGrid.js` lines 45-47. -/
def isVideo (name : String) : Bool := memStr (getExt name) VIDEO_EXT

/-- The `kind` classification of the data model. -/
inductive MediaKind where
  | image
  | video
  | audio
  | heic
  | pdf
  deriving DecidableEq, Repr

/-- The kind the grid's render branch assigns to a (media) filename, in the
branch order of `ThumbnailGrid.js` lines 94-108: HEIC, then PDF, then video,
otherwise image. -/
def gridKind (name : String) : MediaKind :=
  if isHeic name then .heic
  else if isPdf name then .pdf
  else if isVideo name then .video
  else .image

/-- How many of the five supported-format sets contain the filename's extension. -/
def countAllKinds (name : String) : Nat :=
  (if memStr (getExt name) IMAGE_EXT then 1 else 0) +
    (if memStr (getExt name) VIDEO_EXT then 1 else 0) +
    (if memStr (getExt name) AUDIO_EXT then 1 else 0) +
    (if memStr (getExt name) HEIC_EXT then 1 else 0) +
    (if memStr (getExt name) PDF_EXT then 1 else 0)

/-- How many of the four grid classification sets contain the extension. -/
def countGridKinds (name : String) : Nat :=
  (if memStr (getExt name) IMAGE_EXT then 1 else 0) +
    (if memStr (getExt name) VIDEO_EXT then 1 else 0) +
    (if memStr (getExt name) HEIC_EXT then 1 else 0) +
    (if memStr (getExt name) PDF_EXT then 1 else 0)

/-! ### Directory entries, filtering and ordering
From `ThumbnailGrid.js` lines 72-84: the `list_directory` entries are filtered
to non-directories passing `isMediaFile`, then sorted with
`a.name.localeCompare(b.name, undefined, baseSensitivity)` (stable sort).
The comparator is modelled as case-insensitive code-point order, which agrees
with base-sensitivity collation on the ASCII filenames involved. -/

structure Entry where
  name : String
  path : String
  is_dir : Bool
  deriving DecidableEq, Repr

/-- Lower-cased code points of a string, the key compared by the sort. -/
def lowerCodes (s : String) : List Nat :=
  s.data.map (fun c => c.toLower.toNat)

/-- Lexicographic `≤` on code-point lists. -/
def codesLe : List Nat → List Nat → Bool
  | [], _ => true
  | _ :: _, [] => false
  | a :: as, b :: bs =>
    if a < b then true else if b < a then false else codesLe as bs

/-- Case-insensitive `≤` on display names (the shared sort comparator). -/
def nameLe (a b : String) : Bool := codesLe (lowerCodes a) (lowerCodes b)

def entryLe (a b : Entry) : Bool := nameLe a.name b.name

/-- Stable insertion into an already sorted list: `x` goes before the first
element it compares `≤` to, so ties keep their original order (JS sort is stable). -/
def insertEntry (x : Entry) : List Entry → List Entry
  | [] => [x]
  | y :: ys => if entryLe x y then x :: y :: ys else y :: insertEntry x ys

/-- Stable sort by the shared comparator. -/
def sortEntries : List Entry → List Entry
  | [] => []
  | x :: xs => insertEntry x (sortEntries xs)

/-- The resolver pipeline of `loadThumbnails` (`ThumbnailGrid.js` lines 76-77):
keep non-directory supported-media entries, sort case-insensitively by name. -/
def resolveGrid (entries : List Entry) : List Entry :=
  sortEntries (entries.filter (fun e => !e.is_dir && isMediaFile e.name))

/-! ### Display loading
The event-driven loaders are embedded as pure functions from the outcomes of
the collaborator calls to (requests issued, final display).  A `Request` is a
call to an external collaborator; `Display` is the terminal state of the
content element. -/

/-- A call issued to an external collaborator while loading one entry. -/
inductive Request where
  /-- Zero-copy asset reference (`convertFileSrc`, the Tauri asset protocol). -/
  | assetRef
  /-- Backend `read_file_as_data_url` (base64 data representation). -/
  | dataUrlDecode
  /-- Backend `get_video_thumbnail_data_url`. -/
  | videoThumb
  /-- Backend `read_file_as_audio_url` (decoded playable representation). -/
  | audioUrl
  deriving DecidableEq, Repr

/-- Terminal display state of a content element. -/
inductive Display where
  | shownAsset
  | shownDataUrl
  | shownThumb
  | placeholderText
  | hiddenImg
  deriving DecidableEq, Repr

/-- Image branch of `showPreview` (frontend entry point, lines 69-103):
`img.src = convertFileSrc(path)`; `onerror` requests `read_file_as_data_url`;
on success the data URL is shown with `img.onerror = setPlaceholder`, so a
data-URL load failure also ends in the placeholder; a decode failure ends in
the placeholder.  `assetOk` = the asset URL loads; `decodeOk` = the decode
call resolves; `dataOk` = the returned data URL loads. -/
def showPreviewImage (assetOk decodeOk dataOk : Bool) : List Request × Display :=
  if assetOk then ([.assetRef], .shownAsset)
  else if !decodeOk then ([.assetRef, .dataUrlDecode], .placeholderText)
  else if dataOk then ([.assetRef, .dataUrlDecode], .shownDataUrl)
  else ([.assetRef, .dataUrlDecode], .placeholderText)

/-- Video branch of `showPreview` (frontend entry point, lines 40-67):
`video.src = convertFileSrc(path)`; `video.onerror` sets the placeholder text
directly — no decode request is ever issued. -/
def showPreviewVideo (assetOk : Bool) : List Request × Display :=
  if assetOk then ([.assetRef], .shownAsset)
  else ([.assetRef], .placeholderText)

/-- Embeds `showPreview` (frontend entry point, lines 23-103): dispatch on the
extension, HEIC and PDF first (immediate placeholder, no request), then video,
then the image fallback chain. -/
def showPreview (name : String) (assetOk decodeOk dataOk : Bool) :
    List Request × Display :=
  if isHeic name then ([], .placeholderText)
  else if isPdf name then ([], .placeholderText)
  else if isVideo name then showPreviewVideo assetOk
  else showPreviewImage assetOk decodeOk dataOk

/-- Image tail of the viewer's `showImage` (`viewer.js` lines 79-108):
asset reference first; `img.onerror` requests `read_file_as_data_url`, showing
the result on success and `setPlaceholder(name)` on failure. -/
def viewerImageLoad (assetOk decodeOk : Bool) : List Request × Display :=
  if assetOk then ([.assetRef], .shownAsset)
  else if decodeOk then ([.assetRef, .dataUrlDecode], .shownDataUrl)
  else ([.assetRef, .dataUrlDecode], .placeholderText)

/-- Embeds `showImage` (`viewer.js` lines 59-109): HEIC and PDF render a placeholder
immediately with no request; the video branch only sets the asset URL (no
failure handler, no decode fallback); otherwise the image chain runs. -/
def showImage (name : String) (assetOk decodeOk : Bool) :
    List Request × Display :=
  if isHeic name then ([], .placeholderText)
  else if isPdf name then ([], .placeholderText)
  else if isVideo name then ([.assetRef], .shownAsset)
  else viewerImageLoad assetOk decodeOk

/-- One grid cell's loading (`ThumbnailGrid.js` lines 94-150): HEIC/PDF render
a fixed text placeholder with no request; a video requests
`get_video_thumbnail_data_url` up front (placeholder on failure); an image
uses the asset reference, falling back to `read_file_as_data_url` on error and
hiding the image when that also fails. -/
def gridCellLoad (name : String) (thumbOk assetOk decodeOk : Bool) :
    List Request × Display :=
  if isHeic name then ([], .placeholderText)
  else if isPdf name then ([], .placeholderText)
  else if isVideo name then
    if thumbOk then ([.videoThumb], .shownThumb)
    else ([.videoThumb], .placeholderText)
  else
    if assetOk then ([.assetRef], .shownAsset)
    else if decodeOk then ([.assetRef, .dataUrlDecode], .shownDataUrl)
    else ([.assetRef, .dataUrlDecode], .hiddenImg)

/-- Outcome of `startAudioPlayback`. -/
inductive AudioOutcome where
  | playing
  | failed
  | unavailable
  deriving DecidableEq, Repr

/-- Embeds `startAudioPlayback` (frontend entry point, lines 255-280): with a
non-empty track path it always requests `read_file_as_audio_url` — never the
zero-copy asset path — and plays only when the decode succeeds. -/
def startAudioPlayback (filePath : String) (decodeOk : Bool) :
    List Request × AudioOutcome :=
  if filePath = "" then ([], .unavailable)
  else if decodeOk then ([.audioUrl], .playing)
  else ([.audioUrl], .failed)

/-! ### Restore selection
From the frontend entry point (`dirname`, lines 117-125) and the selection
tail of `loadThumbnails` (`ThumbnailGrid.js` lines 165-188). -/

/-- JS `String.prototype.trim` restricted to the ASCII whitespace that can
occur in the paths involved. -/
def isJsSpace (c : Char) : Bool := c = ' ' || c = '\t' || c = '\n' || c = '\r'

def jsTrim (s : String) : String :=
  String.mk (((s.data.dropWhile isJsSpace).reverse.dropWhile isJsSpace).reverse)

/-- Index of the last occurrence of `c`, JS `lastIndexOf` (`none` for `-1`). -/
def lastIdx (cs : List Char) (c : Char) : Option Nat :=
  match cs with
  | [] => none
  | x :: xs =>
    match lastIdx xs c with
    | some j => some (j + 1)
    | none => if x = c then some 0 else none

/-- Embeds `dirname` (frontend entry point, lines 117-125): trim, fold `/` to `\`,
cut at the last `\`; a bare drive letter keeps its trailing `\`; a string with
no separator is returned whole; an empty input yields the empty string. -/
def dirname (p : String) : String :=
  if p = "" then ""
  else
    let s := (jsTrim p).data.map (fun c => if c = '/' then '\\' else c)
    match lastIdx s '\\' with
    | none => String.mk s
    | some i =>
      let out := s.take i
      if out.length = 2 && out.getD 1 ' ' = ':' then String.mk (out ++ ['\\'])
      else String.mk out

/-- Selection tail of `loadThumbnails` (`ThumbnailGrid.js` lines 165-188):
the requested path is used only when it is a non-empty trimmed string and some
cell carries it; otherwise the first cell is selected; the `onSelect` callback
receives the selected cell's `(path, name)`. -/
def selectThumbnail (files : List Entry) (initial : Option String) :
    Option (String × String) :=
  let pathToSelect : Option String :=
    match initial with
    | some s => if jsTrim s ≠ "" then some (jsTrim s) else none
    | none => none
  let matched : Option Entry :=
    match pathToSelect with
    | some p => files.find? (fun e => e.path == p)
    | none => none
  let cell : Option Entry :=
    match matched with
    | some e => some e
    | none => files.head?
  cell.map (fun e => (e.path, e.name))

/-! ### Viewer context and navigation
`viewer.js` `init`/`syncFromState` (lines 220-244) fetch `(paths, index)` from
the backend `get_viewer_context` and clamp `index ≥ paths.length` to the last
valid index; a missing or non-numeric index becomes `0`.  The backend commands
themselves are not among the sources and are modelled from the spec. -/

structure ViewerContext where
  paths : List String
  currentIndex : Int
  deriving DecidableEq, Repr

/-- Modelled from the spec: the backend `open_viewer_window` command snapshots
the ordered path list and start index the grid passes at open time
(`openSecondaryContext(orderedPaths, startIndex)` in §4.5/§6). -/
def open_viewer_window (paths : List String) (startIndex : Nat) : ViewerContext :=
  ⟨paths, (startIndex : Int)⟩

/-- Modelled from the spec: `get_viewer_context() -> (orderedPaths, currentIndex)`
returns the stored snapshot (§6); the index arrives as a number. -/
def get_viewer_context (ctx : ViewerContext) : List String × Option Int :=
  (ctx.paths, some ctx.currentIndex)

/-- The context processing shared by the viewer's `init` and `syncFromState`
(`viewer.js` lines 220-244).  `none` models a rejected call or an
empty/missing path list (the viewer bails out); a `none` index models a
fetched value whose JS typeof is not number.  Only `index >= paths.length`
is clamped. -/
def viewerSync (result : Option (List String × Option Int)) :
    Option (List String × Int) :=
  match result with
  | none => none
  | some (ps, idx?) =>
    if ps.length = 0 then none
    else
      let i0 : Int := idx?.getD 0
      let i1 : Int := if i0 ≥ (ps.length : Int) then (ps.length : Int) - 1 else i0
      some (ps, i1)

/-- Modelled from the spec: the backend `viewer_next` command advances the
stored index with wrap-around (§4.5: after the last item, Next yields the
first). -/
def viewer_next (n i : Nat) : Nat := (i + 1) % n

/-- Modelled from the spec: the backend `viewer_prev` command steps the stored
index back with wrap-around (§4.5: before the first, Previous yields the
last). -/
def viewer_prev (n i : Nat) : Nat := if i = 0 then n - 1 else i - 1

/-! ### Concrete scenario data -/

/-- The §8 scenario folder listing: `b.jpg`, `A.PNG`, `c.mp4`, `d.txt`. -/
def c1Entries : List Entry :=
  [⟨"b.jpg", "C:\\Photos\\b.jpg", false⟩, ⟨"A.PNG", "C:\\Photos\\A.PNG", false⟩,
   ⟨"c.mp4", "C:\\Photos\\c.mp4", false⟩, ⟨"d.txt", "C:\\Photos\\d.txt", false⟩]

/-! ### Helper lemmas -/

lemma memStr_eq_true_iff (s : String) : ∀ l : List String, memStr s l = true ↔ s ∈ l := by
  intro l
  induction l with
  | nil => simp [memStr]
  | cons x xs ih => simp [memStr, ih]

lemma mem_insertEntry (x e : Entry) :
    ∀ l : List Entry, e ∈ insertEntry x l ↔ e = x ∨ e ∈ l := by
  intro l
  induction l with
  | nil => simp [insertEntry]
  | cons y ys ih =>
    simp only [insertEntry]
    cases hxy : entryLe x y <;> simp [hxy, List.mem_cons, ih]
    tauto

lemma mem_sortEntries (e : Entry) : ∀ l : List Entry, e ∈ sortEntries l ↔ e ∈ l := by
  intro l
  induction l with
  | nil => simp [sortEntries]
  | cons x xs ih =>
    simp [sortEntries, mem_insertEntry, ih]

lemma gridKind_image_iff (name : String) :
    gridKind name = .image ↔
      isHeic name = false ∧ isPdf name = false ∧ isVideo name = false := by
  unfold gridKind
  cases h1 : isHeic name <;> cases h2 : isPdf name <;> cases h3 : isVideo name <;> simp

lemma gridKind_video_iff (name : String) :
    gridKind name = .video ↔
      isHeic name = false ∧ isPdf name = false ∧ isVideo name = true := by
  unfold gridKind
  cases h1 : isHeic name <;> cases h2 : isPdf name <;> cases h3 : isVideo name <;> simp

lemma gridKind_heic_iff (name : String) : gridKind name = .heic ↔ isHeic name = true := by
  unfold gridKind
  cases h1 : isHeic name <;> cases h2 : isPdf name <;> cases h3 : isVideo name <;> simp

lemma gridKind_pdf_iff (name : String) :
    gridKind name = .pdf ↔ isHeic name = false ∧ isPdf name = true := by
  unfold gridKind
  cases h1 : isHeic name <;> cases h2 : isPdf name <;> cases h3 : isVideo name <;> simp

/-! ### Claim theorems -/

/-- C1: for a folder listing containing exactly `b.jpg`, `A.PNG`, `c.mp4` and
`d.txt`, the resolver yields the ordered sequence
`[A.PNG (Image), b.jpg (Image), c.mp4 (Video)]`; `d.txt` is excluded, and the
case-insensitive sort places `A.PNG` before `b.jpg`. -/
theorem c1_resolver_scenario :
    resolveGrid c1Entries =
      [⟨"A.PNG", "C:\\Photos\\A.PNG", false⟩, ⟨"b.jpg", "C:\\Photos\\b.jpg", false⟩,
       ⟨"c.mp4", "C:\\Photos\\c.mp4", false⟩]
    ∧ (resolveGrid c1Entries).map (fun e => gridKind e.name) =
      [.image, .image, .video]
    ∧ (resolveGrid c1Entries).all (fun e => e.name != "d.txt") = true := by decide

/-- C3 counterexample: for a Video-kind file whose zero-copy asset reference
fails to load, the preview goes straight to the textual placeholder without
ever requesting the base64 data representation, and the viewer issues only the
asset reference with no fallback at all — refuting the claimed three-step
chain for videos. -/
theorem c3_video_chain_counterexample :
    (showPreview "c.mp4" false false false).2 = Display.placeholderText
    ∧ (showPreview "c.mp4" false false false).1 = [Request.assetRef]
    ∧ (showImage "c.mp4" false false).1 = [Request.assetRef] := by decide

/-- C3 (amended): for Video-kind files there is no base64 fallback step: the
preview pane issues only the zero-copy asset reference and on load failure
falls back directly to a textual placeholder; the viewer window only sets the
asset reference (no failure handler); grid video thumbnails instead request a
decoded thumbnail up front. -/
theorem c3_video_fallback_amended (name : String)
    (assetOk decodeOk dataOk thumbOk : Bool) (h : gridKind name = .video) :
    (showPreview name assetOk decodeOk dataOk).1 = [Request.assetRef]
    ∧ (assetOk = false →
        (showPreview name assetOk decodeOk dataOk).2 = Display.placeholderText)
    ∧ Request.dataUrlDecode ∉ (showPreview name assetOk decodeOk dataOk).1
    ∧ (showImage name assetOk decodeOk).1 = [Request.assetRef]
    ∧ (gridCellLoad name thumbOk assetOk decodeOk).1 = [Request.videoThumb] := by
  obtain ⟨hH, hP, hV⟩ := (gridKind_video_iff name).1 h
  cases assetOk <;> cases thumbOk <;>
    simp [showPreview, showImage, gridCellLoad, showPreviewVideo, hH, hP, hV]

/-- C3 witness: the amended statement at `c.mp4` with every load failing. -/
theorem c3_video_fallback_witness :
    (showPreview "c.mp4" false false false).1 = [Request.assetRef]
    ∧ (showPreview "c.mp4" false false false).2 = Display.placeholderText
    ∧ (showImage "c.mp4" false false).1 = [Request.assetRef]
    ∧ (gridCellLoad "c.mp4" false false false).1 = [Request.videoThumb] :=
  ⟨(c3_video_fallback_amended "c.mp4" false false false false (by decide)).1,
   (c3_video_fallback_amended "c.mp4" false false false false (by decide)).2.1 rfl,
   (c3_video_fallback_amended "c.mp4" false false false false (by decide)).2.2.2.1,
   (c3_video_fallback_amended "c.mp4" false false false false (by decide)).2.2.2.2⟩

/-- C7: for every non-empty track path, audio playback issues exactly the
decoded-representation request (`read_file_as_audio_url`) — never the
zero-copy asset path — and plays only after that decode succeeds. -/
theorem c7_audio_always_decoded (p : String) (decodeOk : Bool) (h : p ≠ "") :
    (startAudioPlayback p decodeOk).1 = [Request.audioUrl]
    ∧ Request.assetRef ∉ (startAudioPlayback p decodeOk).1
    ∧ ((startAudioPlayback p decodeOk).2 = .playing → decodeOk = true) := by
  cases decodeOk <;> simp [startAudioPlayback, h]

/-- C7 witness: the statement at a concrete track with a successful decode. -/
theorem c7_audio_always_decoded_witness :
    (startAudioPlayback "C:\\Music\\t.mp3" true).1 = [Request.audioUrl] :=
  (c7_audio_always_decoded "C:\\Music\\t.mp3" true (by decide)).1

/-- C2 counterexample: the grid's image loader — one of the loaders the claim
covers — does not show a textual placeholder when the chain is exhausted: with
both the asset load and the decode failing on an Image-kind file, the grid
cell hides the image (`img.style.visibility` in `ThumbnailGrid.js` lines
142/145), so the claimed placeholder outcome is false there. -/
theorem c2_grid_hides_image_counterexample :
    gridCellLoad "a.jpg" false false false =
      ([Request.assetRef, Request.dataUrlDecode], Display.hiddenImg)
    ∧ decide ((gridCellLoad "a.jpg" false false false).2 =
        Display.placeholderText) = false := by decide

/-- C2 (amended): for an Image-kind file, all three loaders (grid thumbnail,
preview pane, viewer) attempt the zero-copy asset reference first and request
the base64 decode exactly when that load fails, with exactly one decode
request (no automatic retries); when the decode also fails, the preview pane
and the viewer end in the textual placeholder, while the grid hides the
thumbnail image instead of showing a placeholder. -/
theorem c2_image_fallback_amended (name : String)
    (assetOk decodeOk dataOk thumbOk : Bool) (h : gridKind name = .image) :
    ((Request.dataUrlDecode ∈ (showPreview name assetOk decodeOk dataOk).1) ↔
      assetOk = false)
    ∧ (assetOk = false → decodeOk = false →
        showPreview name assetOk decodeOk dataOk =
          ([Request.assetRef, Request.dataUrlDecode], Display.placeholderText))
    ∧ ((Request.dataUrlDecode ∈ (showImage name assetOk decodeOk).1) ↔
      assetOk = false)
    ∧ (assetOk = false → decodeOk = false →
        showImage name assetOk decodeOk =
          ([Request.assetRef, Request.dataUrlDecode], Display.placeholderText))
    ∧ ((Request.dataUrlDecode ∈ (gridCellLoad name thumbOk assetOk decodeOk).1) ↔
      assetOk = false)
    ∧ (assetOk = false → decodeOk = false →
        gridCellLoad name thumbOk assetOk decodeOk =
          ([Request.assetRef, Request.dataUrlDecode], Display.hiddenImg)) := by
  obtain ⟨hH, hP, hV⟩ := (gridKind_image_iff name).1 h
  cases assetOk <;> cases decodeOk <;> cases dataOk <;> cases thumbOk <;>
    simp [showPreview, showImage, gridCellLoad, showPreviewImage, viewerImageLoad,
      hH, hP, hV]

/-- C2 witness: the amended statement at `a.jpg` with every load failing. -/
theorem c2_image_fallback_amended_witness :
    Request.dataUrlDecode ∈ (showPreview "a.jpg" false false false).1
    ∧ showPreview "a.jpg" false false false =
        ([Request.assetRef, Request.dataUrlDecode], Display.placeholderText)
    ∧ showImage "a.jpg" false false =
        ([Request.assetRef, Request.dataUrlDecode], Display.placeholderText)
    ∧ gridCellLoad "a.jpg" false false false =
        ([Request.assetRef, Request.dataUrlDecode], Display.hiddenImg) :=
  ⟨(c2_image_fallback_amended "a.jpg" false false false false (by decide)).1.mpr rfl,
   (c2_image_fallback_amended "a.jpg" false false false false (by decide)).2.1
     rfl rfl,
   (c2_image_fallback_amended "a.jpg" false false false false (by decide)).2.2.2.1
     rfl rfl,
   (c2_image_fallback_amended "a.jpg" false false false false
       (by decide)).2.2.2.2.2 rfl rfl⟩

/-- C8: for every HEIC- or PDF-kind file, no collaborator request of any kind
is issued and a fixed textual placeholder is rendered immediately, in the
grid, the preview pane and the viewer alike. -/
theorem c8_heic_pdf_no_load (name : String) (thumbOk assetOk decodeOk dataOk : Bool)
    (h : gridKind name = .heic ∨ gridKind name = .pdf) :
    gridCellLoad name thumbOk assetOk decodeOk = ([], Display.placeholderText)
    ∧ showPreview name assetOk decodeOk dataOk = ([], Display.placeholderText)
    ∧ showImage name assetOk decodeOk = ([], Display.placeholderText) := by
  rcases h with h | h
  · have hH := (gridKind_heic_iff name).1 h
    simp [gridCellLoad, showPreview, showImage, hH]
  · obtain ⟨hH, hP⟩ := (gridKind_pdf_iff name).1 h
    simp [gridCellLoad, showPreview, showImage, hH, hP]

/-- C8 witness: the statement at `x.heic` (all collaborator outcomes failing). -/
theorem c8_heic_pdf_no_load_witness :
    gridCellLoad "x.heic" false false false = ([], Display.placeholderText)
    ∧ showPreview "x.heic" false false false = ([], Display.placeholderText)
    ∧ showImage "x.heic" false false = ([], Display.placeholderText) :=
  c8_heic_pdf_no_load "x.heic" false false false false (Or.inl (by decide))

/-- C4: when the restore path's folder loads but no entry carries the missing
path, the selection falls back to the first entry of the ordered sequence and
the selection callback receives it; `dirname` maps the persisted file to its
containing folder. -/
theorem c4_restore_missing_file (entries : List Entry) (p : String)
    (first : Entry) (rest : List Entry)
    (hts : jsTrim p = p) (hne : p ≠ "")
    (hmiss : ∀ e ∈ resolveGrid entries, e.path ≠ p)
    (hfr : resolveGrid entries = first :: rest) :
    selectThumbnail (resolveGrid entries) (some p) = some (first.path, first.name)
    ∧ dirname "C:\\Photos\\missing.jpg" = "C:\\Photos" := by
  constructor
  · have hfind : List.find? (fun e => e.path == p) (first :: rest) = none := by
      rw [← hfr, List.find?_eq_none]
      intro e he
      simp [hmiss e he]
    simp [selectThumbnail, hts, hne, hfr, hfind]
  · decide

/-- C4 witness: restoring `C:\Photos\missing.jpg` over the C1 folder selects
its first entry `A.PNG`. -/
theorem c4_restore_missing_file_witness :
    selectThumbnail (resolveGrid c1Entries) (some "C:\\Photos\\missing.jpg") =
      some ("C:\\Photos\\A.PNG", "A.PNG")
    ∧ dirname "C:\\Photos\\missing.jpg" = "C:\\Photos" :=
  c4_restore_missing_file c1Entries "C:\\Photos\\missing.jpg"
    ⟨"A.PNG", "C:\\Photos\\A.PNG", false⟩
    [⟨"b.jpg", "C:\\Photos\\b.jpg", false⟩, ⟨"c.mp4", "C:\\Photos\\c.mp4", false⟩]
    (by decide) (by decide) (by decide) (by decide)

/-- C5: the ordered path list the grid passes at open time is exactly the
sequence the viewer obtains from its context fetch — item for item, in the
same order (the snapshot round-trips unchanged, and a valid start index is
passed through untouched). -/
theorem c5_grid_viewer_same_order (entries : List Entry) (k : Nat)
    (hk : k < (resolveGrid entries).length) :
    viewerSync (some (get_viewer_context
        (open_viewer_window ((resolveGrid entries).map (fun e => e.path)) k)))
      = some ((resolveGrid entries).map (fun e => e.path), (k : Int)) := by
  simp only [viewerSync, get_viewer_context, open_viewer_window, Option.getD_some,
    List.length_map]
  have h0 : ¬((resolveGrid entries).length = 0) := by omega
  have h1 : ¬((k : Int) ≥ ((resolveGrid entries).length : Int)) := by
    simp only [not_le]
    exact_mod_cast hk
  simp [h0, h1]

/-- C5 witness: for the C1 folder and start index 0 the viewer's sequence is
the grid's ordered path list. -/
theorem c5_grid_viewer_same_order_witness :
    viewerSync (some (get_viewer_context
        (open_viewer_window ((resolveGrid c1Entries).map (fun e => e.path)) 0)))
      = some ((resolveGrid c1Entries).map (fun e => e.path), (0 : Int)) :=
  c5_grid_viewer_same_order c1Entries 0 (by decide)

lemma viewer_next_iterate (n : Nat) :
    ∀ (k i : Nat), i < n → (viewer_next n)^[k] i = (i + k) % n := by
  intro k
  induction k with
  | zero =>
    intro i hi
    simp [Nat.mod_eq_of_lt hi]
  | succ k ih =>
    intro i hi
    rw [Function.iterate_succ_apply', ih i hi]
    simp only [viewer_next]
    have h := (Nat.mod_modEq (i + k) n).add_right 1
    rw [show i + (k + 1) = i + k + 1 by omega]
    exact h

/-- C6: on a non-empty ordered sequence, advancing Next exactly
`len(orderedPaths)` times from any valid start index returns to that index;
Next from the last index yields the first, and Previous from the first yields
the last. -/
theorem c6_wraparound (ps : List String) (i : Nat)
    (hne : ps ≠ []) (hi : i < ps.length) :
    (viewer_next ps.length)^[ps.length] i = i
    ∧ viewer_next ps.length (ps.length - 1) = 0
    ∧ viewer_prev ps.length 0 = ps.length - 1 := by
  have hn : 0 < ps.length := List.length_pos.mpr hne
  refine ⟨?_, ?_, ?_⟩
  · rw [viewer_next_iterate ps.length ps.length i hi, Nat.add_mod_right]
    exact Nat.mod_eq_of_lt hi
  · show (ps.length - 1 + 1) % ps.length = 0
    rw [show ps.length - 1 + 1 = ps.length by omega]
    exact Nat.mod_self _
  · simp [viewer_prev]

/-- C6 witness: the statement on a two-element sequence from index 1. -/
theorem c6_wraparound_witness :
    (viewer_next (["x.jpg", "y.png"] : List String).length)^[(["x.jpg", "y.png"] : List String).length] 1 = 1
    ∧ viewer_next (["x.jpg", "y.png"] : List String).length
        ((["x.jpg", "y.png"] : List String).length - 1) = 0
    ∧ viewer_prev (["x.jpg", "y.png"] : List String).length 0 =
        (["x.jpg", "y.png"] : List String).length - 1 :=
  c6_wraparound ["x.jpg", "y.png"] 1 (by decide) (by decide)

/-- C10 counterexample: the viewer clamps only indices that are too large; a
fetched numeric index of `-1` on a one-element sequence passes through
unchanged, so the displayed index does not satisfy `0 ≤ index`. -/
theorem c10_negative_index_counterexample :
    viewerSync (some (["C:\\Photos\\A.PNG"], some (-1)))
      = some (["C:\\Photos\\A.PNG"], -1)
    ∧ (-1 : Int) < 0 := by decide

/-- C10 (amended): whenever the fetched sequence is non-empty and the fetched
index is non-negative (negative indices are not clamped), the resulting index
satisfies `0 ≤ index < len(paths)`: an index `≥ len` is clamped to the last
valid index and a missing or non-numeric index defaults to 0. -/
theorem c10_clamp_amended (ps : List String) (idx? : Option Int)
    (hne : ps ≠ []) (hnonneg : 0 ≤ idx?.getD 0) :
    (∀ i : Int, viewerSync (some (ps, idx?)) = some (ps, i) →
      0 ≤ i ∧ i < ps.length)
    ∧ viewerSync (some (ps, none)) = some (ps, 0)
    ∧ (idx?.getD 0 ≥ (ps.length : Int) →
        viewerSync (some (ps, idx?)) = some (ps, (ps.length : Int) - 1)) := by
  have hn : 0 < ps.length := List.length_pos.mpr hne
  have hn1 : (1 : Int) ≤ (ps.length : Int) := by exact_mod_cast hn
  have h0 : ¬(ps.length = 0) := by omega
  have hzero : ¬((0 : Int) ≥ (ps.length : Int)) := by omega
  refine ⟨?_, by simp [viewerSync, h0, Option.getD_none, hzero], ?_⟩
  · intro i hi
    by_cases hc : (idx?.getD 0) ≥ ((ps.length : Int))
    · simp [viewerSync, h0, hc] at hi
      omega
    · simp [viewerSync, h0, hc] at hi
      omega
  · intro hc
    simp [viewerSync, h0, hc]

/-- C10 witness: the amended statement on a one-element sequence with fetched
index 5 (clamped to the last valid index, 0). -/
theorem c10_clamp_amended_witness :
    ((0 : Int) ≤ 0 ∧ (0 : Int) < (["C:\\Photos\\A.PNG"] : List String).length)
    ∧ viewerSync (some ((["C:\\Photos\\A.PNG"] : List String), none))
        = some ((["C:\\Photos\\A.PNG"] : List String), 0)
    ∧ viewerSync (some ((["C:\\Photos\\A.PNG"] : List String), some 5))
        = some ((["C:\\Photos\\A.PNG"] : List String),
            (((["C:\\Photos\\A.PNG"] : List String).length : Int) - 1)) :=
  ⟨(c10_clamp_amended ["C:\\Photos\\A.PNG"] (some 5) (by decide) (by decide)).1
      0 (by decide),
   (c10_clamp_amended ["C:\\Photos\\A.PNG"] (some 5) (by decide) (by decide)).2.1,
   (c10_clamp_amended ["C:\\Photos\\A.PNG"] (some 5) (by decide) (by decide)).2.2
      (by decide)⟩

/-- C9 counterexample: the extension `webm` belongs to both the Video set and
the Audio set of the supported-format table, so the filename `x.webm` matches
two of the five sets — at-most-one fails. -/
theorem c9_webm_two_kinds_counterexample :
    countAllKinds "x.webm" = 2
    ∧ memStr (getExt "x.webm") VIDEO_EXT = true
    ∧ memStr (getExt "x.webm") AUDIO_EXT = true := by decide

lemma image_video_disjoint : ∀ s ∈ IMAGE_EXT, s ∉ VIDEO_EXT := by decide

lemma image_heic_disjoint : ∀ s ∈ IMAGE_EXT, s ∉ HEIC_EXT := by decide

lemma image_pdf_disjoint : ∀ s ∈ IMAGE_EXT, s ∉ PDF_EXT := by decide

lemma video_heic_disjoint : ∀ s ∈ VIDEO_EXT, s ∉ HEIC_EXT := by decide

lemma video_pdf_disjoint : ∀ s ∈ VIDEO_EXT, s ∉ PDF_EXT := by decide

lemma heic_pdf_disjoint : ∀ s ∈ HEIC_EXT, s ∉ PDF_EXT := by decide

lemma memStr_false_of_disjoint {s : String} {l1 l2 : List String}
    (hdisj : ∀ x ∈ l1, x ∉ l2) (h : memStr s l1 = true) : memStr s l2 = false := by
  rw [memStr_eq_true_iff] at h
  have h2 := hdisj s h
  rw [← memStr_eq_true_iff] at h2
  simpa using h2

/-- C9 (amended): the four grid classification sets (Image, Video, Heic, Pdf)
are pairwise disjoint, so every filename matches at most one of them and a
grid entry's extension is supported exactly when it matches exactly one; files
matching none of them never appear in the grid's browsing sequence.  (The
Audio set of the music pane overlaps Video at `webm`, so across all five sets
at-most-one fails — see the counterexample.) -/
theorem c9_grid_classification_amended (name : String) (entries : List Entry) :
    countGridKinds name ≤ 1
    ∧ (isMediaFile name = true ↔ countGridKinds name = 1)
    ∧ (∀ e ∈ resolveGrid entries, isMediaFile e.name = true) := by
  have hmain : countGridKinds name ≤ 1
      ∧ (isMediaFile name = true ↔ countGridKinds name = 1) := by
    have hIV : memStr (getExt name) IMAGE_EXT = true →
        memStr (getExt name) VIDEO_EXT = false :=
      fun h => memStr_false_of_disjoint image_video_disjoint h
    have hIH : memStr (getExt name) IMAGE_EXT = true →
        memStr (getExt name) HEIC_EXT = false :=
      fun h => memStr_false_of_disjoint image_heic_disjoint h
    have hIP : memStr (getExt name) IMAGE_EXT = true →
        memStr (getExt name) PDF_EXT = false :=
      fun h => memStr_false_of_disjoint image_pdf_disjoint h
    have hVH : memStr (getExt name) VIDEO_EXT = true →
        memStr (getExt name) HEIC_EXT = false :=
      fun h => memStr_false_of_disjoint video_heic_disjoint h
    have hVP : memStr (getExt name) VIDEO_EXT = true →
        memStr (getExt name) PDF_EXT = false :=
      fun h => memStr_false_of_disjoint video_pdf_disjoint h
    have hHP : memStr (getExt name) HEIC_EXT = true →
        memStr (getExt name) PDF_EXT = false :=
      fun h => memStr_false_of_disjoint heic_pdf_disjoint h
    unfold countGridKinds isMediaFile
    cases hI : memStr (getExt name) IMAGE_EXT <;>
      cases hV : memStr (getExt name) VIDEO_EXT <;>
        cases hH : memStr (getExt name) HEIC_EXT <;>
          cases hP : memStr (getExt name) PDF_EXT <;>
            simp_all
  refine ⟨hmain.1, hmain.2, ?_⟩
  intro e he
  unfold resolveGrid at he
  rw [mem_sortEntries] at he
  have h2 := (List.mem_filter.mp he).2
  simp only [Bool.and_eq_true] at h2
  exact h2.2

/-- C9 witness: the amended statement for `x.jpg` over the C1 folder, with the
exclusion fact applied to its entry `A.PNG`. -/
theorem c9_grid_classification_witness :
    countGridKinds "x.jpg" ≤ 1
    ∧ countGridKinds "x.jpg" = 1
    ∧ isMediaFile "A.PNG" = true :=
  ⟨(c9_grid_classification_amended "x.jpg" c1Entries).1,
   (c9_grid_classification_amended "x.jpg" c1Entries).2.1.mp (by decide),
   (c9_grid_classification_amended "x.jpg" c1Entries).2.2
     ⟨"A.PNG", "C:\\Photos\\A.PNG", false⟩ (by decide)⟩

end VSee
